import Mathlib

/-!
Shallow embedding of `drivers/gpu/drm/panel/panel-sitronix-st7703.c`
(torsoelectronics/linux), the lifecycle core of the ST7703 MIPI-DSI panel
driver: the prepare / enable / disable / unprepare callbacks, the
`dsi_dcs_write_seq` / `dsi_generic_write_seq` macros, and the three
per-variant initialization sequences.

Modelling conventions:
* Hardware side effects are recorded as an ordered trace of events (`Ev`).
* Every fallible external call (regulator enable/disable, every DSI bus
  transaction and read) consumes one slot of a result oracle
  `env : Nat → Int` in program order; the slot value is the C return
  value of that call (negative = failure), mirroring the kernel
  errno-as-negative-int convention.
* the lifecycle-relevant fields of `struct st7703` become `Ctx`:
  `prepared` is the `ctx->prepared` flag, `vccPresent` stands for
  `!IS_ERR_OR_NULL(ctx->vcc)`, `iovccPresent` for
  `!IS_ERR_OR_NULL(ctx->iovcc)`, and `lpm` for the
  `MIPI_DSI_MODE_LPM` bit of `dsi->mode_flags`.
* `dev_err` / `dev_dbg` / `printk` logging has no modelled effect.
-/

namespace ST7703

/-- The two optional voltage rails owned by the driver. -/
inductive Rail
  | vcc
  | iovcc
deriving DecidableEq, Repr

/-- Observable hardware actions, in the order the driver performs them. -/
inductive Ev
  | gpioSet (v : Nat)
  | regEnable (r : Rail)
  | regDisable (r : Rail)
  | sleep (ms : Nat)
  | dcsWrite (cmd : Nat) (payload : List Nat)
  | genWrite (payload : List Nat)
  | exitSleepCmd
  | displayOnCmd
  | displayOffCmd
  | enterSleepCmd
  | dcsRead (cmd : Nat)
deriving DecidableEq, Repr

/-- Lifecycle-relevant fields of `struct st7703` plus the bus LPM flag. -/
structure Ctx where
  vccPresent : Bool
  iovccPresent : Bool
  prepared : Bool
  lpm : Bool
deriving DecidableEq, Repr

/-- A machine configuration: driver state, the index of the next oracle
slot to consume, and the trace of hardware actions so far. -/
structure M where
  ctx : Ctx
  k : Nat
  trace : List Ev
deriving DecidableEq, Repr

/-- Record a hardware action that cannot fail. -/
def emit (m : M) (e : Ev) : M :=
  { m with trace := m.trace ++ [e] }

/-- One fallible external call: records the event and consumes the next
oracle slot as its return value. -/
def extCall (env : Nat → Int) (m : M) (e : Ev) : Int × M :=
  (env m.k, { m with k := m.k + 1, trace := m.trace ++ [e] })

/-- Embeds `gpiod_set_value_cansleep(ctx->reset_gpio, v)`. -/
def gpiod_set_value_cansleep (m : M) (v : Nat) : M :=
  emit m (Ev.gpioSet v)

/-- Embeds `msleep(ms)`. -/
def msleep (m : M) (ms : Nat) : M :=
  emit m (Ev.sleep ms)

/-- Embeds `regulator_enable(rail)`. -/
def regulator_enable (env : Nat → Int) (m : M) (r : Rail) : Int × M :=
  extCall env m (Ev.regEnable r)

/-- Embeds `regulator_disable(rail)`. -/
def regulator_disable (env : Nat → Int) (m : M) (r : Rail) : Int × M :=
  extCall env m (Ev.regDisable r)

/-- Embeds `mipi_dsi_dcs_write(dsi, cmd, d, ARRAY_SIZE(d))`. -/
def mipi_dsi_dcs_write (env : Nat → Int) (m : M) (cmd : Nat)
    (payload : List Nat) : Int × M :=
  extCall env m (Ev.dcsWrite cmd payload)

/-- Embeds `mipi_dsi_generic_write(dsi, d, ARRAY_SIZE(d))`. -/
def mipi_dsi_generic_write (env : Nat → Int) (m : M)
    (payload : List Nat) : Int × M :=
  extCall env m (Ev.genWrite payload)

/-- Embeds `mipi_dsi_dcs_exit_sleep_mode(dsi)`. -/
def mipi_dsi_dcs_exit_sleep_mode (env : Nat → Int) (m : M) : Int × M :=
  extCall env m Ev.exitSleepCmd

/-- Embeds `mipi_dsi_dcs_set_display_on(dsi)`. -/
def mipi_dsi_dcs_set_display_on (env : Nat → Int) (m : M) : Int × M :=
  extCall env m Ev.displayOnCmd

/-- Embeds `mipi_dsi_dcs_set_display_off(dsi)`. -/
def mipi_dsi_dcs_set_display_off (env : Nat → Int) (m : M) : Int × M :=
  extCall env m Ev.displayOffCmd

/-- Embeds `mipi_dsi_dcs_enter_sleep_mode(dsi)`. -/
def mipi_dsi_dcs_enter_sleep_mode (env : Nat → Int) (m : M) : Int × M :=
  extCall env m Ev.enterSleepCmd

/-- Embeds `readInfo(dsi)`: one `mipi_dsi_dcs_read(dsi, 0xDA, data, 1)` whose
return value is only printed, never acted on. -/
def readInfo (env : Nat → Int) (m : M) : M :=
  (extCall env m (Ev.dcsRead 0xDA)).2

/-- One invocation of the live `dsi_dcs_write_seq` macro (lines 174-181):
the DCS write, then an unconditional `msleep(20)`, and only then the
`ret < 0` check by the surrounding procedure.  The returned `Int` is the
transport result of the write. -/
def dsi_dcs_write_seq (env : Nat → Int) (m : M) (cmd : Nat)
    (payload : List Nat) : Int × M :=
  let r := mipi_dsi_dcs_write env m cmd payload
  (r.1, msleep r.2 20)

/-- One invocation of the `dsi_generic_write_seq` macro (lines 85-91):
a generic write with no delay, checked by the surrounding procedure. -/
def dsi_generic_write_seq (env : Nat → Int) (m : M)
    (payload : List Nat) : Int × M :=
  mipi_dsi_generic_write env m payload

/-- One statement of an init procedure: a `dsi_dcs_write_seq`, a
`dsi_generic_write_seq`, or a bare `msleep`. -/
inductive Step
  | dcs (cmd : Nat) (payload : List Nat)
  | gen (payload : List Nat)
  | delay (ms : Nat)
deriving DecidableEq, Repr

/-- Execute one init-procedure statement. -/
def runStep (env : Nat → Int) (m : M) : Step → Int × M
  | Step.dcs c p => dsi_dcs_write_seq env m c p
  | Step.gen p => dsi_generic_write_seq env m p
  | Step.delay d => (0, msleep m d)

/-- Run an init procedure: each write macro returns its error immediately
when the transport result is negative (`if (ret < 0) return ret;`),
otherwise the next statement runs; reaching the end is `return 0`. -/
def runInit (env : Nat → Int) (m : M) : List Step → Int × M
  | [] => (0, m)
  | s :: rest =>
    let r := runStep env m s
    if r.1 < 0 then r else runInit env r.2 rest

/-- Lifecycle-relevant content of `struct st7703_panel_desc`: the lane
count and the init procedure (as its statement list). -/
structure Desc where
  lanes : Nat
  init_sequence : List Step

/-- Embeds `jh057n_init_sequence` (lines 93-148): generic writes, one bare
`msleep(20)` in the middle, each payload led by its command byte. -/
def jh057n_init_sequence : List Step :=
  [ Step.gen [0xB9, 0xF1, 0x12, 0x83],
    Step.gen [0xB3, 0x10, 0x10, 0x05, 0x05, 0x03, 0xFF, 0x00, 0x00,
              0x00, 0x00],
    Step.gen [0xC0, 0x73, 0x73, 0x50, 0x50, 0x00, 0x00, 0x08, 0x70,
              0x00],
    Step.gen [0xBC, 0x4E],
    Step.gen [0xCC, 0x0B],
    Step.gen [0xB4, 0x80],
    Step.gen [0xB2, 0xF0, 0x12, 0x30],
    Step.gen [0xE3, 0x07, 0x07, 0x0B, 0x0B, 0x03, 0x0B, 0x00, 0x00,
              0x00, 0x00, 0xFF, 0x00, 0xC0, 0x10],
    Step.gen [0xB5, 0x08, 0x08],
    Step.delay 20,
    Step.gen [0xB6, 0x3F, 0x3F],
    Step.gen [0xBF, 0x02, 0x11, 0x00],
    Step.gen [0xE9,
              0x82, 0x10, 0x06, 0x05, 0x9E, 0x0A, 0xA5, 0x12,
              0x31, 0x23, 0x37, 0x83, 0x04, 0xBC, 0x27, 0x38,
              0x0C, 0x00, 0x03, 0x00, 0x00, 0x00, 0x0C, 0x00,
              0x03, 0x00, 0x00, 0x00, 0x75, 0x75, 0x31, 0x88,
              0x88, 0x88, 0x88, 0x88, 0x88, 0x13, 0x88, 0x64,
              0x64, 0x20, 0x88, 0x88, 0x88, 0x88, 0x88, 0x88,
              0x02, 0x88, 0x00, 0x00, 0x00, 0x00, 0x00, 0x00,
              0x00, 0x00, 0x00, 0x00, 0x00, 0x00, 0x00],
    Step.gen [0xEA,
              0x02, 0x21, 0x00, 0x00, 0x00, 0x00, 0x00, 0x00,
              0x00, 0x00, 0x00, 0x00, 0x02, 0x46, 0x02, 0x88,
              0x88, 0x88, 0x88, 0x88, 0x88, 0x64, 0x88, 0x13,
              0x57, 0x13, 0x88, 0x88, 0x88, 0x88, 0x88, 0x88,
              0x75, 0x88, 0x23, 0x14, 0x00, 0x00, 0x02, 0x00,
              0x00, 0x00, 0x00, 0x00, 0x00, 0x00, 0x00, 0x00,
              0x00, 0x00, 0x00, 0x00, 0x00, 0x00, 0x30, 0x0A,
              0xA5, 0x00, 0x00, 0x00, 0x00],
    Step.gen [0xE0,
              0x00, 0x09, 0x0E, 0x29, 0x2D, 0x3C, 0x41, 0x37,
              0x07, 0x0B, 0x0D, 0x10, 0x11, 0x0F, 0x10, 0x11,
              0x18, 0x00, 0x09, 0x0E, 0x29, 0x2D, 0x3C, 0x41,
              0x37, 0x07, 0x0B, 0x0D, 0x10, 0x11, 0x0F, 0x10,
              0x11, 0x18] ]

/-- Embeds `xbd599_init_sequence` (lines 261-427): every command is commented
out in the source; the body is just `return 0`. -/
def xbd599_init_sequence : List Step := []

/-- Embeds `p0500063b_init_sequence` (lines 452-702): 22 live
`dsi_dcs_write_seq` statements, no bare delays (all `msleep(60)` lines
are commented out). -/
def p0500063b_init_sequence : List Step :=
  [ Step.dcs 0xB9 [0xF1, 0x12, 0x83],
    Step.dcs 0xB1 [0x00, 0x00, 0x00, 0xDA, 0x80],
    Step.dcs 0xB2 [0x78, 0x13, 0xF0],
    Step.dcs 0xB3 [0x1A, 0x1E, 0x28, 0x28, 0x03, 0xFF, 0x00, 0x00,
                   0x00, 0x00],
    Step.dcs 0xB4 [0x80],
    Step.dcs 0xB5 [0x10, 0x10],
    Step.dcs 0xB6 [0x48, 0x48],
    Step.dcs 0xB8 [0x2E, 0x22, 0xF0, 0x13],
    Step.dcs 0xBA [0x33, 0x81, 0x05, 0xF9, 0x0E, 0x0E,
                   0x20, 0x00, 0x00, 0x00, 0x00, 0x00, 0x00, 0x00,
                   0x44, 0x25, 0x00, 0x90, 0x0A, 0x00, 0x00, 0x01,
                   0x4F, 0x01, 0x00, 0x00, 0x37],
    Step.dcs 0xBC [0x4F],
    Step.dcs 0xBF [0x02, 0x11, 0x00],
    Step.dcs 0xC0 [0x73, 0x73, 0x50, 0x50, 0x00, 0x00, 0x12, 0x70,
                   0x00],
    Step.dcs 0xC1 [0x64, 0xC1, 0x2C, 0x2C, 0x77, 0xE4, 0xCF, 0xCF,
                   0x7E, 0x7E, 0x3E, 0x3E],
    Step.dcs 0xC6 [0x82, 0x00, 0xBF, 0xFF, 0x00, 0xFF],
    Step.dcs 0xC7 [0xB8, 0x00, 0x0A, 0x00, 0x00, 0x00],
    Step.dcs 0xC8 [0x10, 0x40, 0x1E, 0x02],
    Step.dcs 0xCC [0x0B],
    Step.dcs 0xE0 [0x00, 0x0B, 0x10, 0x24, 0x29, 0x38,
                   0x44, 0x39, 0x0A, 0x0D, 0x0D, 0x12, 0x14, 0x13,
                   0x15, 0x10, 0x15, 0x00, 0x0B, 0x10, 0x24, 0x29,
                   0x38, 0x44, 0x39, 0x0A, 0x0D, 0x0D, 0x12, 0x14,
                   0x13, 0x15, 0x10, 0x15],
    Step.dcs 0xE3 [0x07, 0x07, 0x0B, 0x0B, 0x0B, 0x0B, 0x00, 0x00,
                   0x00, 0x00, 0xFF, 0x00, 0xC0, 0x10],
    Step.dcs 0xE9 [0xC8, 0x10, 0x11, 0x03, 0xC3, 0x80,
                   0x81, 0x12, 0x31, 0x23, 0xAF, 0x8E, 0xAD, 0x6D,
                   0x8F, 0x10, 0x03, 0x00, 0x19, 0x00, 0x00, 0x00,
                   0x03, 0x00, 0x19, 0x00, 0x00, 0x00, 0x9F, 0x84,
                   0x6A, 0xB6, 0x48, 0x20, 0x64, 0x20, 0x20, 0x88,
                   0x88, 0x9F, 0x85, 0x7A, 0xB7, 0x58, 0x31, 0x75,
                   0x31, 0x31, 0x88, 0x88, 0x00, 0x00, 0x00, 0x00,
                   0x00, 0x80, 0x81, 0x5F, 0x00, 0x00, 0x00, 0x00,
                   0x00, 0x00, 0x00],
    Step.dcs 0xEA [0x96, 0x1C, 0x01, 0x01, 0x00, 0x00,
                   0x01, 0x00, 0x00, 0x00, 0x00, 0x00, 0x98, 0xF3,
                   0x1A, 0xB1, 0x38, 0x57, 0x13, 0x57, 0x57, 0x88,
                   0x88, 0x98, 0xF2, 0x0A, 0xB0, 0x28, 0x46, 0x02,
                   0x46, 0x46, 0x88, 0x88, 0x23, 0x10, 0x00, 0x00,
                   0xF4, 0x00, 0x00, 0x00, 0x00, 0x00, 0x00, 0x0D,
                   0x80, 0x00, 0xF0, 0x00, 0x03, 0xCF, 0x12, 0x30,
                   0x70, 0x80, 0x81, 0x40, 0x80, 0x81, 0x00, 0x00,
                   0x00, 0x00],
    Step.dcs 0xEF [0xFF, 0xFF, 0x01] ]

/-- Embeds `jh057n00900_panel_desc` (lines 165-172). -/
def jh057n00900_panel_desc : Desc :=
  { lanes := 4, init_sequence := jh057n_init_sequence }

/-- Embeds `xbd599_desc` (lines 444-450). -/
def xbd599_desc : Desc :=
  { lanes := 4, init_sequence := xbd599_init_sequence }

/-- Embeds `p0500063b_desc` (lines 740-746). -/
def p0500063b_desc : Desc :=
  { lanes := 4, init_sequence := p0500063b_init_sequence }

/-- Embeds `dsi->mode_flags |= MIPI_DSI_MODE_LPM` at the top of `st7703_enable`. -/
def set_lpm (m : M) : M :=
  { m with ctx := { m.ctx with lpm := true } }

/-- Embeds `st7703_enable` (lines 748-798): set the LPM flag, run the variant
init sequence (propagating its error), `msleep(20)`, exit sleep mode
(propagating its error), `msleep(120)`, `readInfo`, set display on with
the `if (ret) return ret;` check commented out in the source, `readInfo`,
`return 0`. -/
def st7703_enable (desc : Desc) (env : Nat → Int) (m : M) : Int × M :=
  let r1 := runInit env (set_lpm m) desc.init_sequence
  if r1.1 < 0 then r1
  else
    let r2 := mipi_dsi_dcs_exit_sleep_mode env (msleep r1.2 20)
    if r2.1 < 0 then r2
    else
      let m3 := readInfo env (msleep r2.2 120)
      let r3 := mipi_dsi_dcs_set_display_on env m3
      (0, readInfo env r3.2)

/-- Embeds `st7703_disable` (lines 800-818): display off then enter sleep, each
result only logged, `return 0`. -/
def st7703_disable (env : Nat → Int) (m : M) : Int × M :=
  let r1 := mipi_dsi_dcs_set_display_off env m
  let r2 := mipi_dsi_dcs_enter_sleep_mode env r1.2
  (0, r2.2)

/-- Embeds `st7703_unprepare` (lines 820-836): early-return when not prepared;
otherwise assert reset, disable iovcc when present, disable vcc under
the guard in the source `!ctx->prepared && IS_ERR_OR_NULL(ctx->vcc)`, clear
`prepared`, `msleep(40)`, `return 0`. -/
def st7703_unprepare (env : Nat → Int) (m : M) : Int × M :=
  if !m.ctx.prepared then (0, m)
  else
    let m1 := gpiod_set_value_cansleep m 1
    let m2 := if m1.ctx.iovccPresent
              then (regulator_disable env m1 Rail.iovcc).2 else m1
    let m3 := if !m2.ctx.prepared && !m2.ctx.vccPresent
              then (regulator_disable env m2 Rail.vcc).2 else m2
    let m4 : M := { m3 with ctx := { m3.ctx with prepared := false } }
    (0, msleep m4 40)

/-- Tail of `st7703_prepare` after both rails: assert reset,
`msleep(20)`, deassert reset, `msleep(120)`, `return 0`. -/
def st7703_prepare_reset (m : M) : Int × M :=
  (0, msleep (gpiod_set_value_cansleep
        (msleep (gpiod_set_value_cansleep m 1) 20) 0) 120)

/-- Embeds `st7703_prepare` from `ctx->prepared = 1;` (line 855) on: set the
flag, enable iovcc when present and on its failure `goto disable_vcc`
(disable vcc, clear the flag, return the error), else the reset tail. -/
def st7703_prepare_rest (env : Nat → Int) (m : M) : Int × M :=
  let m1 : M := { m with ctx := { m.ctx with prepared := true } }
  if m1.ctx.iovccPresent then
    let r := regulator_enable env m1 Rail.iovcc
    if r.1 < 0 then
      let m2 := (regulator_disable env r.2 Rail.vcc).2
      (r.1, { m2 with ctx := { m2.ctx with prepared := false } })
    else st7703_prepare_reset r.2
  else st7703_prepare_reset m1

/-- Embeds `st7703_prepare` (lines 838-878): early-return when already
prepared; enable vcc under `!ctx->prepared && !IS_ERR_OR_NULL(ctx->vcc)`
returning its error on failure; then `st7703_prepare_rest`. -/
def st7703_prepare (env : Nat → Int) (m : M) : Int × M :=
  if m.ctx.prepared then (0, m)
  else if !m.ctx.prepared && m.ctx.vccPresent then
    let r := regulator_enable env m Rail.vcc
    if r.1 < 0 then r
    else st7703_prepare_rest env r.2
  else st7703_prepare_rest env m

/-- Oracle under which every external call succeeds. -/
def envOk : Nat → Int := fun _ => 0

/-- Oracle whose `j`-th external call returns `e`, all others succeed. -/
def failAt (j : Nat) (e : Int) : Nat → Int :=
  fun k => if k = j then e else 0

/-- A panel with both rails wired, not prepared, LPM clear. -/
def ctx0 : Ctx :=
  { vccPresent := true, iovccPresent := true,
    prepared := false, lpm := false }

/-- Fresh machine in the Unprepared state, both rails wired. -/
def m0 : M := { ctx := ctx0, k := 0, trace := [] }

/-- Machine in the Prepared state, both rails wired. -/
def mPrepared : M :=
  { ctx := { ctx0 with prepared := true }, k := 0, trace := [] }

/-- Events one init statement records when its transport call (if any)
is reached. -/
def stepEvents : Step → List Ev
  | Step.dcs c p => [Ev.dcsWrite c p, Ev.sleep 20]
  | Step.gen p => [Ev.genWrite p]
  | Step.delay d => [Ev.sleep d]

/-- Events an init statement list records when every statement runs. -/
def initEvents : List Step → List Ev
  | [] => []
  | s :: rest => stepEvents s ++ initEvents rest

/-- Number of codec writes (DCS or generic) in an init statement list;
bare delays are not codec calls. -/
def writeCount : List Step → Nat
  | [] => 0
  | Step.dcs _ _ :: rest => writeCount rest + 1
  | Step.gen _ :: rest => writeCount rest + 1
  | Step.delay _ :: rest => writeCount rest

/-- Shortest prefix of an init statement list that contains `k + 1`
codec writes: the statements executed when the `k`-th write (0-based)
is the last one reached. -/
def takeToWrite : Nat → List Step → List Step
  | _, [] => []
  | 0, Step.dcs c p :: _ => [Step.dcs c p]
  | k + 1, Step.dcs c p :: rest => Step.dcs c p :: takeToWrite k rest
  | 0, Step.gen p :: _ => [Step.gen p]
  | k + 1, Step.gen p :: rest => Step.gen p :: takeToWrite k rest
  | k, Step.delay d :: rest => Step.delay d :: takeToWrite k rest

end ST7703

namespace ST7703

/-! ### Helper lemmas -/

/-- One init statement never touches the driver context fields. -/
theorem runStep_ctx (env : Nat → Int) (m : M) (s : Step) :
    ((runStep env m s).2).ctx = m.ctx := by
  cases s <;> rfl

/-- Running an init procedure never touches the driver context fields. -/
theorem runInit_ctx (env : Nat → Int) :
    ∀ (steps : List Step) (m : M), ((runInit env m steps).2).ctx = m.ctx := by
  intro steps
  induction steps with
  | nil => intro m; rfl
  | cons s rest ih =>
      intro m
      by_cases hs : (runStep env m s).1 < 0
      · simp [runInit, hs, runStep_ctx]
      · simp [runInit, hs, ih, runStep_ctx]

/-- Full characterisation of a run whose `k`-th codec write (0-based,
the write consuming oracle slot `m.k + k`) is the first to fail: the
run returns exactly that error, consumes exactly `k + 1` oracle slots
(so no later transport call is ever issued), and records exactly the
events of the statements up to and including the failing write. -/
theorem runInit_fail_at_kth_write :
    ∀ (steps : List Step) (env : Nat → Int) (m : M) (k : Nat),
      k < writeCount steps →
      (∀ j, j < k → 0 ≤ env (m.k + j)) →
      env (m.k + k) < 0 →
      runInit env m steps =
        (env (m.k + k),
         { ctx := m.ctx
           k := m.k + k + 1
           trace := m.trace ++ initEvents (takeToWrite k steps) }) := by
  intro steps
  induction steps with
  | nil =>
      intro env m k hk hpre hfail
      simp [writeCount] at hk
  | cons s rest ih =>
      intro env m k hk hpre hfail
      cases s with
      | dcs c p =>
          cases k with
          | zero =>
              have hneg : env m.k < 0 := by simpa using hfail
              simp [runInit, runStep, dsi_dcs_write_seq, mipi_dsi_dcs_write,
                    extCall, msleep, emit, hneg, takeToWrite, initEvents,
                    stepEvents, List.append_assoc]
          | succ n =>
              have h0 : ¬ env m.k < 0 :=
                not_lt.mpr (by simpa using hpre 0 (Nat.succ_pos n))
              have hk' : n < writeCount rest := by
                simp [writeCount] at hk
                omega
              have hrw : runInit env m (Step.dcs c p :: rest) =
                  runInit env
                    { ctx := m.ctx
                      k := m.k + 1
                      trace := m.trace ++ [Ev.dcsWrite c p, Ev.sleep 20] }
                    rest := by
                simp [runInit, runStep, dsi_dcs_write_seq,
                      mipi_dsi_dcs_write, extCall, msleep, emit, h0,
                      List.append_assoc]
              have hpre' : ∀ j, j < n → 0 ≤ env (m.k + 1 + j) := by
                intro j hj
                have h := hpre (j + 1) (by omega)
                have heq : m.k + (j + 1) = m.k + 1 + j := by omega
                rwa [heq] at h
              have hfail' : env (m.k + 1 + n) < 0 := by
                have heq : m.k + (n + 1) = m.k + 1 + n := by omega
                rwa [heq] at hfail
              rw [hrw, ih env
                    { ctx := m.ctx
                      k := m.k + 1
                      trace := m.trace ++ [Ev.dcsWrite c p, Ev.sleep 20] }
                    n hk' hpre' hfail']
              have heq : m.k + 1 + n = m.k + (n + 1) := by omega
              simp [heq, takeToWrite, initEvents, stepEvents,
                    List.append_assoc]
      | gen p =>
          cases k with
          | zero =>
              have hneg : env m.k < 0 := by simpa using hfail
              simp [runInit, runStep, dsi_generic_write_seq,
                    mipi_dsi_generic_write, extCall, emit, hneg, takeToWrite,
                    initEvents, stepEvents, List.append_assoc]
          | succ n =>
              have h0 : ¬ env m.k < 0 :=
                not_lt.mpr (by simpa using hpre 0 (Nat.succ_pos n))
              have hk' : n < writeCount rest := by
                simp [writeCount] at hk
                omega
              have hrw : runInit env m (Step.gen p :: rest) =
                  runInit env
                    { ctx := m.ctx
                      k := m.k + 1
                      trace := m.trace ++ [Ev.genWrite p] }
                    rest := by
                simp [runInit, runStep, dsi_generic_write_seq,
                      mipi_dsi_generic_write, extCall, emit, h0]
              have hpre' : ∀ j, j < n → 0 ≤ env (m.k + 1 + j) := by
                intro j hj
                have h := hpre (j + 1) (by omega)
                have heq : m.k + (j + 1) = m.k + 1 + j := by omega
                rwa [heq] at h
              have hfail' : env (m.k + 1 + n) < 0 := by
                have heq : m.k + (n + 1) = m.k + 1 + n := by omega
                rwa [heq] at hfail
              rw [hrw, ih env
                    { ctx := m.ctx
                      k := m.k + 1
                      trace := m.trace ++ [Ev.genWrite p] }
                    n hk' hpre' hfail']
              have heq : m.k + 1 + n = m.k + (n + 1) := by omega
              simp [heq, takeToWrite, initEvents, stepEvents,
                    List.append_assoc]
      | delay d =>
          have hk' : k < writeCount rest := by
            simpa [writeCount] using hk
          have hrw : runInit env m (Step.delay d :: rest) =
              runInit env
                { ctx := m.ctx
                  k := m.k
                  trace := m.trace ++ [Ev.sleep d] }
                rest := by
            simp [runInit, runStep, msleep, emit]
          rw [hrw, ih env
                { ctx := m.ctx
                  k := m.k
                  trace := m.trace ++ [Ev.sleep d] }
                k hk' hpre hfail]
          simp [takeToWrite, initEvents, stepEvents, List.append_assoc]

/-- The function `st7703_enable` only ever sets the LPM flag in the context. -/
theorem st7703_enable_ctx (desc : Desc) (env : Nat → Int) (m : M) :
    ((st7703_enable desc env m).2).ctx = (set_lpm m).ctx := by
  by_cases h1 : (runInit env (set_lpm m) desc.init_sequence).1 < 0
  · simp [st7703_enable, h1, runInit_ctx]
  · by_cases h2 : (mipi_dsi_dcs_exit_sleep_mode env
        (msleep (runInit env (set_lpm m) desc.init_sequence).2 20)).1 < 0
    all_goals
      simp only [mipi_dsi_dcs_exit_sleep_mode, extCall, msleep, emit] at h2
      simp [st7703_enable, h1, h2, runInit_ctx, readInfo,
            mipi_dsi_dcs_exit_sleep_mode, mipi_dsi_dcs_set_display_on,
            extCall, msleep, emit]

end ST7703

namespace ST7703

/-! ### Claim theorems -/

/-- Claim C1 (code evaluated at the failing input): from the Prepared
state with both rails wired, `st7703_unprepare` asserts reset, disables
only the iovcc rail, waits 40 ms and returns success; no vcc disable
ever appears in the trace, because the guard in the source
`!ctx->prepared && IS_ERR_OR_NULL(ctx->vcc)` (line 830) is dead at that
point: `ctx->prepared` is still 1, and the `IS_ERR_OR_NULL` polarity
would in any case only fire for an absent rail. -/
theorem st7703_unprepare_never_disables_vcc :
    st7703_unprepare envOk mPrepared =
      (0, { ctx := ctx0, k := 1,
            trace := [Ev.gpioSet 1, Ev.regDisable Rail.iovcc,
                      Ev.sleep 40] })
    ∧ Ev.regDisable Rail.vcc ∉
        (st7703_unprepare envOk mPrepared).2.trace := by
  decide

/-- Claim C5: `st7703_prepare` from a prepared panel and
`st7703_unprepare` from an unprepared panel both return success
immediately with the machine unchanged — no reset toggle, no rail
action, no delay, no oracle slot consumed. -/
theorem st7703_prepare_unprepare_idempotent (env : Nat → Int) (m : M) :
    (m.ctx.prepared = true → st7703_prepare env m = (0, m))
    ∧ (m.ctx.prepared = false → st7703_unprepare env m = (0, m)) := by
  constructor
  · intro h
    simp [st7703_prepare, h]
  · intro h
    simp [st7703_unprepare, h]

/-- Witness for C5 at concrete inputs. -/
theorem st7703_prepare_unprepare_idempotent_witness :
    st7703_prepare envOk mPrepared = (0, mPrepared)
    ∧ st7703_unprepare envOk m0 = (0, m0) :=
  ⟨(st7703_prepare_unprepare_idempotent envOk mPrepared).1 rfl,
   (st7703_prepare_unprepare_idempotent envOk m0).2 rfl⟩

/-- Claim C7: for every oracle (in particular when rail disables report
failure) and every starting state, `st7703_unprepare` returns success
and leaves the panel unprepared. -/
theorem st7703_unprepare_unconditional (env : Nat → Int) (m : M) :
    (st7703_unprepare env m).1 = 0
    ∧ ((st7703_unprepare env m).2).ctx.prepared = false := by
  by_cases h : m.ctx.prepared = true
  · simp [st7703_unprepare, h, regulator_disable, extCall,
          gpiod_set_value_cansleep, msleep, emit]
  · have h' : m.ctx.prepared = false := by
      revert h; cases m.ctx.prepared <;> simp
    simp [st7703_unprepare, h']

/-- Claim C8: every `dsi_dcs_write_seq` invocation records the DCS write
immediately followed by the fixed 20 ms delay, unconditionally — the
returned value is whatever the transport reported (possibly an error),
and the delay is in the trace regardless of that value. -/
theorem dsi_dcs_write_seq_always_delays (env : Nat → Int) (m : M)
    (cmd : Nat) (payload : List Nat) :
    dsi_dcs_write_seq env m cmd payload =
      (env m.k,
       { m with
         k := m.k + 1
         trace := m.trace ++ [Ev.dcsWrite cmd payload, Ev.sleep 20] }) := by
  simp [dsi_dcs_write_seq, mipi_dsi_dcs_write, extCall, msleep, emit]

/-- Claim C9: for every oracle (in particular when either or both bus
commands fail), `st7703_disable` issues display-off first and
sleep-enter second and returns success. -/
theorem st7703_disable_best_effort (env : Nat → Int) (m : M) :
    st7703_disable env m =
      (0, { m with
            k := m.k + 2
            trace := m.trace ++ [Ev.displayOffCmd, Ev.enterSleepCmd] }) := by
  simp [st7703_disable, mipi_dsi_dcs_set_display_off,
        mipi_dsi_dcs_enter_sleep_mode, extCall, emit]

/-- Claim C10: the init procedure of the xbd599 variant is empty (every
command in the source is commented out), so running it from any state
under any oracle returns success, records no bus transaction and no
delay, and consumes no oracle slot. -/
theorem xbd599_init_no_commands (env : Nat → Int) (m : M) :
    xbd599_desc.init_sequence = []
    ∧ runInit env m xbd599_desc.init_sequence = (0, m) :=
  ⟨rfl, rfl⟩

end ST7703

namespace ST7703

/-- Claim C3 counterexample: from the Unprepared state with both rails
wired and every call succeeding, the first hardware action of
`st7703_prepare` is the vcc enable, not a reset assertion, and no settle
delay separates the two rail enables: the reset pulse
(assert, 20 ms, deassert, 120 ms) comes only after both rails are up. -/
theorem st7703_prepare_rails_before_reset :
    st7703_prepare envOk m0 =
      (0, { ctx := { ctx0 with prepared := true }
            k := 2
            trace := [Ev.regEnable Rail.vcc, Ev.regEnable Rail.iovcc,
                      Ev.gpioSet 1, Ev.sleep 20, Ev.gpioSet 0,
                      Ev.sleep 120] })
    ∧ (st7703_prepare envOk m0).2.trace.head? ≠ some (Ev.gpioSet 1) := by
  decide

/-- Claim C3 (amended): from the Unprepared state with all external
calls succeeding, `st7703_prepare` enables the primary rail if present,
then the secondary rail if present (with no delay in between), then
asserts reset, waits 20 ms, deasserts reset and waits 120 ms before
returning success; the reset deassertion is the last hardware action
before the final 120 ms settle delay. -/
theorem st7703_prepare_order (env : Nat → Int) (m : M)
    (hp : m.ctx.prepared = false) (henv : ∀ j, 0 ≤ env j) :
    st7703_prepare env m =
      (0, { ctx := { m.ctx with prepared := true }
            k := m.k + (if m.ctx.vccPresent then 1 else 0)
                 + (if m.ctx.iovccPresent then 1 else 0)
            trace := m.trace
              ++ (if m.ctx.vccPresent then [Ev.regEnable Rail.vcc] else [])
              ++ (if m.ctx.iovccPresent then [Ev.regEnable Rail.iovcc] else [])
              ++ [Ev.gpioSet 1, Ev.sleep 20, Ev.gpioSet 0,
                  Ev.sleep 120] }) := by
  obtain ⟨⟨v, i, p, l⟩, k, tr⟩ := m
  cases p with
  | true => simp at hp
  | false =>
      have h0 : ∀ j, ¬ env j < 0 := fun j => not_lt.mpr (henv j)
      cases v <;> cases i <;>
        simp [st7703_prepare, st7703_prepare_rest, st7703_prepare_reset,
              regulator_enable, extCall, gpiod_set_value_cansleep, msleep,
              emit, h0, List.append_assoc]

/-- Witness for the amended C3 at concrete inputs. -/
theorem st7703_prepare_order_witness :
    st7703_prepare envOk m0 =
      (0, { ctx := { m0.ctx with prepared := true }
            k := m0.k + (if m0.ctx.vccPresent then 1 else 0)
                 + (if m0.ctx.iovccPresent then 1 else 0)
            trace := m0.trace
              ++ (if m0.ctx.vccPresent then [Ev.regEnable Rail.vcc] else [])
              ++ (if m0.ctx.iovccPresent then [Ev.regEnable Rail.iovcc]
                  else [])
              ++ [Ev.gpioSet 1, Ev.sleep 20, Ev.gpioSet 0,
                  Ev.sleep 120] }) :=
  st7703_prepare_order envOk m0 rfl (fun _ => le_refl 0)

/-- Claim C4: if the vcc enable succeeded and the iovcc enable fails,
`st7703_prepare` disables vcc again (the `goto disable_vcc` rollback),
returns the iovcc error, and the panel is back in the Unprepared state:
the hardware is left fully unpowered, not half-powered. -/
theorem st7703_prepare_rollback (env : Nat → Int) (m : M)
    (hp : m.ctx.prepared = false) (hv : m.ctx.vccPresent = true)
    (hi : m.ctx.iovccPresent = true)
    (h0 : 0 ≤ env m.k) (h1 : env (m.k + 1) < 0) :
    st7703_prepare env m =
      (env (m.k + 1),
       { ctx := m.ctx
         k := m.k + 3
         trace := m.trace ++ [Ev.regEnable Rail.vcc,
                              Ev.regEnable Rail.iovcc,
                              Ev.regDisable Rail.vcc] }) := by
  obtain ⟨⟨v, i, p, l⟩, k, tr⟩ := m
  cases p with
  | true => simp at hp
  | false =>
      cases v with
      | false => simp at hv
      | true =>
          cases i with
          | false => simp at hi
          | true =>
              have h0' : ¬ env k < 0 := not_lt.mpr h0
              simp [st7703_prepare, st7703_prepare_rest,
                    st7703_prepare_reset, regulator_enable,
                    regulator_disable, extCall, emit, h0', h1,
                    List.append_assoc]

/-- Witness for C4 at concrete inputs. -/
theorem st7703_prepare_rollback_witness :
    st7703_prepare (failAt 1 (-5)) m0 =
      (failAt 1 (-5) (m0.k + 1),
       { ctx := m0.ctx
         k := m0.k + 3
         trace := m0.trace ++ [Ev.regEnable Rail.vcc,
                               Ev.regEnable Rail.iovcc,
                               Ev.regDisable Rail.vcc] }) :=
  st7703_prepare_rollback (failAt 1 (-5)) m0 rfl rfl rfl
    (by decide) (by decide)

/-- Oracle making the display-on transport call (the third external call
of `st7703_enable` on the xbd599 variant) fail with −5. -/
def envDisplayOnFails : Nat → Int := failAt 2 (-5)

/-- Claim C2 counterexample: on the xbd599 variant from the Prepared
state, the display-on transport call fails (its oracle slot is −5), yet
`st7703_enable` returns 0 — the `if (ret) return ret;` after
`mipi_dsi_dcs_set_display_on` is commented out in the source, so a
display-on failure is not propagated. -/
theorem st7703_enable_swallows_display_on_error :
    envDisplayOnFails 2 = -5
    ∧ st7703_enable xbd599_desc envDisplayOnFails mPrepared =
        (0, { ctx := { ctx0 with prepared := true, lpm := true }
              k := 4
              trace := [Ev.sleep 20, Ev.exitSleepCmd, Ev.sleep 120,
                        Ev.dcsRead 0xDA, Ev.displayOnCmd,
                        Ev.dcsRead 0xDA] }) := by
  decide

/-- Claim C2 (amended): `st7703_enable` never changes the `prepared`
flag; a failure of the variant init procedure or of the exit-sleep
command makes it return that error immediately; when both succeed it
returns success even if the display-on command fails. -/
theorem st7703_enable_error_path (desc : Desc) (env : Nat → Int) (m : M) :
    ((st7703_enable desc env m).2).ctx.prepared = m.ctx.prepared
    ∧ ((runInit env (set_lpm m) desc.init_sequence).1 < 0 →
        st7703_enable desc env m =
          runInit env (set_lpm m) desc.init_sequence)
    ∧ (¬ (runInit env (set_lpm m) desc.init_sequence).1 < 0 →
        (mipi_dsi_dcs_exit_sleep_mode env
            (msleep (runInit env (set_lpm m) desc.init_sequence).2 20)).1 < 0 →
        st7703_enable desc env m =
          mipi_dsi_dcs_exit_sleep_mode env
            (msleep (runInit env (set_lpm m) desc.init_sequence).2 20))
    ∧ (¬ (runInit env (set_lpm m) desc.init_sequence).1 < 0 →
        ¬ (mipi_dsi_dcs_exit_sleep_mode env
            (msleep (runInit env (set_lpm m) desc.init_sequence).2 20)).1 < 0 →
        (st7703_enable desc env m).1 = 0) := by
  refine ⟨?_, ?_, ?_, ?_⟩
  · rw [st7703_enable_ctx desc env m]
    rfl
  · intro h1
    simp [st7703_enable, h1]
  · intro h1 h2
    simp [st7703_enable, h1, h2]
  · intro h1 h2
    simp [st7703_enable, h1, h2]

/-- Witness for the amended C2 at concrete inputs: an init procedure
whose first write fails makes `st7703_enable` return exactly the failed
init run, with the `prepared` flag untouched. -/
theorem st7703_enable_error_path_witness :
    ((st7703_enable p0500063b_desc (failAt 0 (-9)) mPrepared).2).ctx.prepared
        = mPrepared.ctx.prepared
    ∧ st7703_enable p0500063b_desc (failAt 0 (-9)) mPrepared =
        runInit (failAt 0 (-9)) (set_lpm mPrepared)
          p0500063b_desc.init_sequence :=
  ⟨(st7703_enable_error_path p0500063b_desc (failAt 0 (-9)) mPrepared).1,
   (st7703_enable_error_path p0500063b_desc (failAt 0 (-9)) mPrepared).2.1
     (by decide)⟩

/-- Claim C6: (general part) for every init procedure, every start
state and every `k`, when the `k`-th codec write of the run is the
first whose transport result is negative, the run returns exactly that
error, consumes exactly `k + 1` oracle slots — so it issues no
transport call after the failing write — and its trace is exactly the
events of the statements up to and including that write; (instance) on
the p0500063b variant with the third codec write made to fail with any
negative `e`, `st7703_enable` from the Prepared state returns `e`, the
`prepared` flag stays set, and the trace holds exactly the first three
DCS writes (each with its 20 ms delay) and nothing after them. -/
theorem init_sequence_failfast :
    (∀ (steps : List Step) (env : Nat → Int) (m : M) (k : Nat),
       k < writeCount steps →
       (∀ j, j < k → 0 ≤ env (m.k + j)) →
       env (m.k + k) < 0 →
       runInit env m steps =
         (env (m.k + k),
          { ctx := m.ctx
            k := m.k + k + 1
            trace := m.trace ++ initEvents (takeToWrite k steps) }))
    ∧ (∀ e : Int, e < 0 →
        st7703_enable p0500063b_desc (failAt 2 e) mPrepared =
          (e, { ctx := { ctx0 with prepared := true, lpm := true }
                k := 3
                trace := [Ev.dcsWrite 0xB9 [0xF1, 0x12, 0x83], Ev.sleep 20,
                          Ev.dcsWrite 0xB1 [0x00, 0x00, 0x00, 0xDA, 0x80],
                          Ev.sleep 20,
                          Ev.dcsWrite 0xB2 [0x78, 0x13, 0xF0],
                          Ev.sleep 20] })) := by
  constructor
  · exact runInit_fail_at_kth_write
  · intro e he
    simp [st7703_enable, p0500063b_desc, p0500063b_init_sequence, runInit,
          runStep, dsi_dcs_write_seq, mipi_dsi_dcs_write, extCall, msleep,
          emit, set_lpm, mPrepared, ctx0, failAt, he]

/-- Witness for C6 at concrete inputs: on the p0500063b procedure with
the second write failing (slot 1, error −7) the run stops after two
writes, and with the third write failing (error −22) `st7703_enable`
returns the error with the trace of exactly three writes. -/
theorem init_sequence_failfast_witness :
    runInit (failAt 1 (-7)) m0 p0500063b_init_sequence =
        (failAt 1 (-7) (m0.k + 1),
         { ctx := m0.ctx
           k := m0.k + 1 + 1
           trace := m0.trace
             ++ initEvents (takeToWrite 1 p0500063b_init_sequence) })
    ∧ st7703_enable p0500063b_desc (failAt 2 (-22)) mPrepared =
        (-22, { ctx := { ctx0 with prepared := true, lpm := true }
                k := 3
                trace := [Ev.dcsWrite 0xB9 [0xF1, 0x12, 0x83], Ev.sleep 20,
                          Ev.dcsWrite 0xB1 [0x00, 0x00, 0x00, 0xDA, 0x80],
                          Ev.sleep 20,
                          Ev.dcsWrite 0xB2 [0x78, 0x13, 0xF0],
                          Ev.sleep 20] }) :=
  ⟨init_sequence_failfast.1 p0500063b_init_sequence (failAt 1 (-7)) m0 1
     (by decide) (by decide) (by decide),
   init_sequence_failfast.2 (-22) (by decide)⟩

end ST7703
